import Mathlib

/-
Verification of the indicator-computation and chart-assembly pipeline of the
stock-analysis dashboard (source: src/Ai_Stock.py).

The embedding models the pandas series arithmetic over the rationals.  Values
that pandas represents as NaN (an unfilled rolling window, a 0/0 division) are
modelled as the missing value of an Option.  The Bollinger standard deviation
needs a real square root, so the band series live in the reals; everything
else is exact rational arithmetic.
-/

namespace AiStock

/-- A validated daily price record, one row of the fetched DataFrame after the
null gate and the numeric conversion (source lines 54-63).  Dates are indices
into the calendar, prices and volume are exact rationals. -/
structure Row where
  date : ℕ
  openP : ℚ
  high : ℚ
  low : ℚ
  close : ℚ
  volume : ℚ
deriving DecidableEq, Repr

/-- The session DataFrame: the validated rows plus the VWAP column that
add_indicator writes back into it (source line 110).  A fresh fetch has no
VWAP column. -/
structure DF where
  rows : List Row
  vwapCol : Option (List (Option ℚ))
deriving DecidableEq, Repr

def closes (rows : List Row) : List ℚ := rows.map Row.close

def volumes (rows : List Row) : List ℚ := rows.map Row.volume

def dates (rows : List Row) : List ℕ := rows.map Row.date

/-- The trailing 20-value window ending at index i, the window that pandas
rolling(window=20) aggregates at position i once it is full. -/
def window20 (close : List ℚ) (i : ℕ) : List ℚ :=
  (close.drop (i - 19)).take 20

/-- Mean of the trailing 20-window, the value rolling(20).mean() produces at a
full window. -/
def winMean (close : List ℚ) (i : ℕ) : ℚ :=
  (window20 close i).sum / 20

/-- Source line 97: data.Close.rolling(window=20).mean().  The first 19
positions have an unfilled window and are NaN, modelled as none. -/
def sma20 (close : List ℚ) : List (Option ℚ) :=
  (List.range close.length).map fun i =>
    if 19 ≤ i then some (winMean close i) else none

/-- Source line 100: data.Close.ewm(span=20).mean().  With span 20 pandas uses
alpha = 2/21 and, with the default adjust=True, the value at i is the
weighted sum of the closes with weights (1-alpha)^j over the distance j,
divided by the sum of those weights.  Defined from the first row. -/
def ema20 (close : List ℚ) : List (Option ℚ) :=
  (List.range close.length).map fun i =>
    some ((∑ j ∈ Finset.range (i + 1), (1 - 2 / 21 : ℚ) ^ j * close.getD (i - j) 0) /
      (∑ j ∈ Finset.range (i + 1), (1 - 2 / 21 : ℚ) ^ j))

/-- The sample variance of the trailing 20-window (pandas rolling std uses
ddof = 1, so the squared deviations are divided by 19). -/
def sampleVar20 (close : List ℚ) (i : ℕ) : ℚ :=
  ((window20 close i).map fun x => (x - winMean close i) ^ 2).sum / 19

/-- Source line 104: data.Close.rolling(window=20).std(), the square root of
the sample variance of the trailing window; NaN (none) while the window is
unfilled. -/
noncomputable def rollingStd20 (close : List ℚ) : List (Option ℝ) :=
  (List.range close.length).map fun i =>
    if 19 ≤ i then some (Real.sqrt (sampleVar20 close i)) else none

/-- Source line 105: bb_upper = sma + 2 * std, pointwise with NaN
propagation. -/
noncomputable def bb_upper (close : List ℚ) : List (Option ℝ) :=
  List.zipWith (fun s t =>
      match s, t with
      | some a, some b => some ((a : ℝ) + 2 * b)
      | _, _ => none)
    (sma20 close) (rollingStd20 close)

/-- Source line 106: bb_lower = sma - 2 * std, pointwise with NaN
propagation. -/
noncomputable def bb_lower (close : List ℚ) : List (Option ℝ) :=
  List.zipWith (fun s t =>
      match s, t with
      | some a, some b => some ((a : ℝ) - 2 * b)
      | _, _ => none)
    (sma20 close) (rollingStd20 close)

/-- Source line 110: (Close * Volume).cumsum() / Volume.cumsum().  When the
cumulative volume at i is 0 every addend of the cumulative product is close
times a zero volume (the record volumes are non-negative), so pandas computes
0/0 = NaN there; the embedding returns none. -/
def vwapSeries (close volume : List ℚ) : List (Option ℚ) :=
  (List.range close.length).map fun i =>
    if (volume.take (i + 1)).sum = 0 then none
    else some (((List.zipWith (fun a b => a * b) close volume).take (i + 1)).sum /
      (volume.take (i + 1)).sum)

/-- The indicator choices offered by the multiselect (source line 89). -/
inductive Indicator
  | sma
  | ema
  | bb
  | vwap
deriving DecidableEq, Repr

/-- The label each indicator carries in the multiselect (source line 89). -/
def indicatorLabel : Indicator → String
  | .sma => "20-Day SMA"
  | .ema => "20-Day EMA"
  | .bb => "20-Day Bollinger Bands"
  | .vwap => "VWAP"

def candlestickName : String := "Candlestick"

def smaName : String := "SMA (20)"

def emaName : String := "EMA (20)"

def bbUpperName : String := "BB Upper"

def bbLowerName : String := "BB Lower"

def vwapName : String := "VWAP"

/-- One renderable trace of the plotly figure: the candlestick trace of source
lines 67-74, or a line trace added by add_indicator. -/
inductive Layer
  | candlestick (x : List ℕ) (o h l c : List ℚ) (name : String)
  | line (x : List ℕ) (y : List (Option ℝ)) (name : String)

def layerName : Layer → String
  | .candlestick _ _ _ _ _ n => n
  | .line _ _ n => n

/-- Lift an exact rational series into the real-valued trace data. -/
noncomputable def liftQ (s : List (Option ℚ)) : List (Option ℝ) :=
  s.map (Option.map (Rat.cast : ℚ → ℝ))

/-- The candlestick trace built from the validated rows (source lines
66-75). -/
def candlestickLayer (rows : List Row) : Layer :=
  .candlestick (dates rows) (rows.map Row.openP) (rows.map Row.high)
    (rows.map Row.low) (closes rows) candlestickName

/-- Source lines 94-113, the body of add_indicator: dispatch on the indicator
label, compute the series, append the line trace (two for the Bollinger
bands) to the figure; the VWAP branch also writes the VWAP column back into
the DataFrame (line 110). -/
noncomputable def add_indicator : Indicator → DF → List Layer → DF × List Layer
  | .sma, df, fig =>
      (df, fig ++ [Layer.line (dates df.rows) (liftQ (sma20 (closes df.rows))) smaName])
  | .ema, df, fig =>
      (df, fig ++ [Layer.line (dates df.rows) (liftQ (ema20 (closes df.rows))) emaName])
  | .bb, df, fig =>
      (df, fig ++ [Layer.line (dates df.rows) (bb_upper (closes df.rows)) bbUpperName,
        Layer.line (dates df.rows) (bb_lower (closes df.rows)) bbLowerName])
  | .vwap, df, fig =>
      ({ df with vwapCol := some (vwapSeries (closes df.rows) (volumes df.rows)) },
        fig ++ [Layer.line (dates df.rows)
          (liftQ (vwapSeries (closes df.rows) (volumes df.rows))) vwapName])

/-- The line traces one indicator contributes, as a function of the rows
alone (add_indicator never reads the VWAP column). -/
noncomputable def linesFor (rows : List Row) : Indicator → List Layer
  | .sma => [Layer.line (dates rows) (liftQ (sma20 (closes rows))) smaName]
  | .ema => [Layer.line (dates rows) (liftQ (ema20 (closes rows))) emaName]
  | .bb => [Layer.line (dates rows) (bb_upper (closes rows)) bbUpperName,
      Layer.line (dates rows) (bb_lower (closes rows)) bbLowerName]
  | .vwap => [Layer.line (dates rows)
      (liftQ (vwapSeries (closes rows) (volumes rows))) vwapName]

/-- One iteration of the loop at source lines 116-117: the call
add_indicator(indicator, data, fig) threading the DataFrame and the
figure. -/
noncomputable def chartStep (p : DF × List Layer) (i : Indicator) : DF × List Layer :=
  add_indicator i p.1 p.2

/-- Source lines 66-117: start the figure with the candlestick trace, then
run the indicator loop in selection order. -/
noncomputable def buildChart (df : DF) (sel : List Indicator) : DF × List Layer :=
  sel.foldl chartStep (df, [candlestickLayer df.rows])

/-- A raw fetched row before the null gate: any field may be missing (NaN). -/
structure RawRow where
  date : ℕ
  openV : Option ℚ
  highV : Option ℚ
  lowV : Option ℚ
  closeV : Option ℚ
  volumeV : Option ℚ
deriving DecidableEq, Repr

def rowHasNull (r : RawRow) : Bool :=
  r.openV.isNone || r.highV.isNone || r.lowV.isNone || r.closeV.isNone || r.volumeV.isNone

/-- Source line 43: data.isnull().values.any(). -/
def isnullAny (raw : List RawRow) : Bool :=
  raw.any rowHasNull

def toRow (r : RawRow) : Row :=
  { date := r.date, openP := r.openV.getD 0, high := r.highV.getD 0,
    low := r.lowV.getD 0, close := r.closeV.getD 0, volume := r.volumeV.getD 0 }

/-- The single warning of source line 155, shown for an empty DataFrame and
for a DataFrame with nulls alike. -/
def noDataMsg : String :=
  "No data found for the specified ticker and date range, or data contains NaN values. Please check your inputs."

/-- Outcome of one script run over fetched data: either the chart layers were
built, or the validation warning was shown and no chart work happened. -/
inductive PipelineResult
  | chart (layers : List Layer)
  | warned (msg : String)

/-- Source lines 43-120: the validation gate (non-empty and no nulls) guards
every indicator computation and the chart construction; on violation only the
warning of line 155 is emitted. -/
noncomputable def runPipeline (raw : List RawRow) (sel : List Indicator) : PipelineResult :=
  if !raw.isEmpty && !isnullAny raw then
    .chart (buildChart { rows := raw.map toRow, vwapCol := none } sel).2
  else
    .warned noDataMsg

def fetchErrPre : String := "Error fetching data: "

def fetchErrMsg (e : String) : String := fetchErrPre ++ e

/-- Result of the fetch block, source lines 23-36: what is stored in the
session, what error banner is shown, and whether st.stop() halted the run. -/
structure FetchOutcome where
  stored : Option (List RawRow)
  errorShown : Option String
  stopped : Bool
deriving DecidableEq, Repr

/-- Source lines 23-36: a successful download replaces the session data; an
exception shows the error banner and stops the run, leaving the previous
session data in place. -/
def fetchStep (result : Except String (List RawRow)) (prev : Option (List RawRow)) :
    FetchOutcome :=
  match result with
  | .ok d => { stored := some d, errorShown := none, stopped := false }
  | .error e => { stored := prev, errorShown := some (fetchErrMsg e), stopped := true }

/-- Observable outcome of the Run AI Analysis block, source lines 124-152:
what text was displayed, whether an in-app error banner was shown, whether an
exception escaped the block uncaught, and whether the temporary chart image
still exists when the block is left. -/
structure AnalysisOutcome where
  displayed : Option String
  errorShown : Option String
  uncaught : Option String
  tempFileExists : Bool
deriving DecidableEq, Repr

/-- Source lines 124-152, parameterised by the outcome of the ollama.chat
call at line 145.  The temporary image is created with delete=False (line
127).  There is no try/except around the model request: on success the
response is displayed and os.remove (line 152) deletes the image; on failure
the exception escapes the block uncaught, no in-app error is shown, and the
os.remove line is never reached. -/
def runAnalysis (chat : Except String String) : AnalysisOutcome :=
  match chat with
  | .ok content =>
      { displayed := some content, errorShown := none, uncaught := none,
        tempFileExists := false }
  | .error e =>
      { displayed := none, errorShown := none, uncaught := some e,
        tempFileExists := true }

def indicatorErrPre : String := "Error adding indicator "

/-- The error banner of source line 113. -/
def indicatorErrMsg (i : Indicator) : String := indicatorErrPre ++ indicatorLabel i

/-- One loop iteration of lines 116-117 under fault injection: the try/except
of lines 95-113 catches an exception raised while computing an indicator,
shows the error banner, and leaves the DataFrame and figure as they were;
otherwise the body of add_indicator runs. -/
noncomputable def renderStep (fails : Indicator → Bool) (st : DF × List Layer × List String)
    (i : Indicator) : DF × List Layer × List String :=
  if fails i then (st.1, st.2.1, st.2.2 ++ [indicatorErrMsg i])
  else ((add_indicator i st.1 st.2.1).1, (add_indicator i st.1 st.2.1).2, st.2.2)

/-- The indicator loop of lines 116-117 under fault injection, starting from
the candlestick figure; the third component collects the error banners
shown. -/
noncomputable def renderWithFaults (fails : Indicator → Bool) (df : DF)
    (sel : List Indicator) : DF × List Layer × List String :=
  sel.foldl (renderStep fails) (df, [candlestickLayer df.rows], [])

/-- Spec side, section 8: the arithmetic mean of the 20 trailing closes
close[i-19..i]. -/
def trailingMean20 (close : List ℚ) (i : ℕ) : ℚ :=
  (∑ j ∈ Finset.Icc (i - 19) i, close.getD j 0) / 20

/-- Spec side, section 8: the running sum of close times volume over
0..i. -/
def cumPV (close volume : List ℚ) (i : ℕ) : ℚ :=
  ∑ j ∈ Finset.range (i + 1), close.getD j 0 * volume.getD j 0

/-- Spec side, section 8: the running sum of volume over 0..i. -/
def cumVol (volume : List ℚ) (i : ℕ) : ℚ :=
  ∑ j ∈ Finset.range (i + 1), volume.getD j 0

/-- A constant valid row used by concrete scenarios. -/
def mkRow (j : ℕ) : Row :=
  { date := j, openP := j + 1, high := j + 1, low := j + 1, close := j + 1, volume := 1 }

/-- A valid 252-row PriceSeries (one trading year), as in the spec
scenario. -/
def df252 : DF :=
  { rows := (List.range 252).map mkRow, vwapCol := none }

/-- A raw row whose close is null, as in the spec scenario. -/
def nullCloseRow : RawRow :=
  { date := 0, openV := some 1, highV := some 1, lowV := some 1, closeV := none,
    volumeV := some 1 }

def timeoutMsg : String := "timeout"

def c20 : List ℚ := List.replicate 20 1

def close2 : List ℚ := [1, 2]

def volume2 : List ℚ := [0, 1]

/-! Helper lemmas about the list plumbing shared by the claim theorems. -/

theorem getD_range_map {α : Type} (f : ℕ → α) (d : α) (n i : ℕ) :
    ((List.range n).map f).getD i d = if i < n then f i else d := by
  by_cases h : i < n
  · rw [List.getD_eq_getElem _ _ (by simpa using h)]
    simp [h]
  · rw [List.getD_eq_default _ _ (by simpa using Nat.le_of_not_lt h)]
    simp [h]

theorem sum_take_getD (xs : List ℚ) (n : ℕ) :
    (xs.take n).sum = ∑ j ∈ Finset.range n, xs.getD j 0 := by
  induction xs generalizing n with
  | nil => simp
  | cons x xs ih =>
    cases n with
    | zero => simp
    | succ m =>
      rw [List.take_succ_cons, List.sum_cons, Finset.sum_range_succ']
      simp only [List.getD_cons_succ, List.getD_cons_zero, ih m]
      ring

theorem getD_drop (xs : List ℚ) (a j : ℕ) (d : ℚ) :
    (xs.drop a).getD j d = xs.getD (a + j) d := by
  induction xs generalizing a with
  | nil => simp
  | cons x xs ih =>
    cases a with
    | zero => simp
    | succ b =>
      rw [List.drop_succ_cons, ih b]
      simp [Nat.succ_add]

theorem getD_zipWith_mul (xs ys : List ℚ) (j : ℕ) (hx : j < xs.length)
    (hy : j < ys.length) :
    (List.zipWith (fun a b => a * b) xs ys).getD j 0 = xs.getD j 0 * ys.getD j 0 := by
  induction xs generalizing ys j with
  | nil => simp at hx
  | cons x xs ih =>
    cases ys with
    | nil => simp at hy
    | cons y ys =>
      cases j with
      | zero => simp
      | succ k =>
        simpa using ih ys k (by simpa using hx) (by simpa using hy)

theorem winMean_eq_trailingMean20 (close : List ℚ) (i : ℕ) (h19 : 19 ≤ i) :
    winMean close i = trailingMean20 close i := by
  rw [winMean, trailingMean20, window20]
  congr 1
  rw [sum_take_getD]
  rw [show Finset.Icc (i - 19) i = Finset.Ico (i - 19) (i + 1) by
    rw [Nat.Ico_succ_right]]
  rw [Finset.sum_Ico_eq_sum_range]
  have h20 : i + 1 - (i - 19) = 20 := by omega
  rw [h20]
  exact Finset.sum_congr rfl fun j _ => getD_drop close (i - 19) j 0

/-- C1: for every PriceSeries with at least 20 rows, the SMA(20) indicator at
every index i with i at least 19 equals the arithmetic mean of the 20
trailing close values close[i-19..i], and is undefined at every index before
the 19th. -/
theorem sma20_correct (close : List ℚ) (hlen : 20 ≤ close.length) (i : ℕ)
    (hi : i < close.length) :
    (19 ≤ i → (sma20 close).getD i none = some (trailingMean20 close i)) ∧
    (i < 19 → (sma20 close).getD i none = none) := by
  constructor
  · intro h19
    rw [sma20, getD_range_map, if_pos hi, if_pos h19,
      winMean_eq_trailingMean20 close i h19]
  · intro hlt
    rw [sma20, getD_range_map, if_pos hi, if_neg (by omega)]

/-- Witness for C1 at a concrete 20-row close series and index 19. -/
theorem sma20_correct_witness :
    (sma20 c20).getD 19 none = some (trailingMean20 c20 19) :=
  (sma20_correct c20 (by decide) 19 (by decide)).1 (by decide)

/-- C2: for every PriceSeries and every index i, the VWAP indicator at i
equals the running sum of close times volume over 0..i divided by the
running sum of volume over 0..i, and is undefined (the NaN of the 0/0
division, not a fatal error) where the cumulative volume at i is 0. -/
theorem vwap_correct (close volume : List ℚ) (hlen : volume.length = close.length)
    (i : ℕ) (hi : i < close.length) :
    (vwapSeries close volume).getD i none =
      if cumVol volume i = 0 then none
      else some (cumPV close volume i / cumVol volume i) := by
  rw [vwapSeries, getD_range_map, if_pos hi]
  have hv : (volume.take (i + 1)).sum = cumVol volume i := by
    rw [sum_take_getD, cumVol]
  have hpv : ((List.zipWith (fun a b => a * b) close volume).take (i + 1)).sum =
      cumPV close volume i := by
    rw [sum_take_getD, cumPV]
    refine Finset.sum_congr rfl fun j hj => ?_
    have hj2 : j < close.length := by
      have := Finset.mem_range.mp hj
      omega
    exact getD_zipWith_mul close volume j hj2 (by omega)
  rw [hv, hpv]

/-- Witness for C2 at a concrete two-row series with positive cumulative
volume at index 1. -/
theorem vwap_correct_witness :
    (vwapSeries close2 volume2).getD 1 none =
      if cumVol volume2 1 = 0 then none
      else some (cumPV close2 volume2 1 / cumVol volume2 1) :=
  vwap_correct close2 volume2 (by decide) 1 (by decide)

theorem bb_upper_eq (close : List ℚ) :
    bb_upper close = (List.range close.length).map fun i =>
      if 19 ≤ i then
        some ((winMean close i : ℝ) + 2 * Real.sqrt (sampleVar20 close i))
      else none := by
  rw [bb_upper, sma20, rollingStd20, List.zipWith_map, List.zipWith_same]
  refine List.map_congr_left fun i _ => ?_
  by_cases h : 19 ≤ i <;> simp [h]

theorem bb_lower_eq (close : List ℚ) :
    bb_lower close = (List.range close.length).map fun i =>
      if 19 ≤ i then
        some ((winMean close i : ℝ) - 2 * Real.sqrt (sampleVar20 close i))
      else none := by
  rw [bb_lower, sma20, rollingStd20, List.zipWith_map, List.zipWith_same]
  refine List.map_congr_left fun i _ => ?_
  by_cases h : 19 ≤ i <;> simp [h]

/-- C3: at every index where the Bollinger bands are defined the upper band
minus the lower band equals exactly 4 times the trailing 20-period sample
standard deviation of close, and both bands are undefined exactly where
SMA(20) is undefined. -/
theorem bollinger_band_width (close : List ℚ) :
    (List.zipWith (fun u v =>
        match u, v with
        | some a, some b => some (a - b)
        | _, _ => none) (bb_upper close) (bb_lower close) =
      (rollingStd20 close).map (Option.map fun s => 4 * s)) ∧
    (∀ i : ℕ, (bb_upper close).getD i none = none ↔ (sma20 close).getD i none = none) ∧
    (∀ i : ℕ, (bb_lower close).getD i none = none ↔ (sma20 close).getD i none = none) := by
  refine ⟨?_, ?_, ?_⟩
  · rw [bb_upper_eq, bb_lower_eq, rollingStd20, List.zipWith_map, List.zipWith_same,
      List.map_map]
    refine List.map_congr_left fun i _ => ?_
    by_cases h : 19 ≤ i
    · simp only [h, if_true, Function.comp_apply, Option.map_some]
      congr 1
      ring
    · simp [h]
  · intro i
    rw [bb_upper_eq, sma20, getD_range_map, getD_range_map]
    by_cases hi : i < close.length
    · by_cases h : 19 ≤ i <;> simp [hi, h]
    · simp [hi]
  · intro i
    rw [bb_lower_eq, sma20, getD_range_map, getD_range_map]
    by_cases hi : i < close.length
    · by_cases h : 19 ≤ i <;> simp [hi, h]
    · simp [hi]

theorem add_indicator_snd (i : Indicator) (df : DF) (fig : List Layer) :
    (add_indicator i df fig).2 = fig ++ linesFor df.rows i := by
  cases i <;> rfl

theorem add_indicator_fst (i : Indicator) (df : DF) (fig : List Layer) :
    (add_indicator i df fig).1 =
      { rows := df.rows,
        vwapCol := if i = Indicator.vwap then
            some (vwapSeries (closes df.rows) (volumes df.rows))
          else df.vwapCol } := by
  cases i <;> simp [add_indicator]

theorem fold_chartStep_fst (sel : List Indicator) :
    ∀ p : DF × List Layer,
      (sel.foldl chartStep p).1 =
        { rows := p.1.rows,
          vwapCol := if Indicator.vwap ∈ sel then
              some (vwapSeries (closes p.1.rows) (volumes p.1.rows))
            else p.1.vwapCol } := by
  induction sel with
  | nil => intro p; simp
  | cons i rest ih =>
    intro p
    rw [List.foldl_cons, ih (chartStep p i)]
    have h1 : (chartStep p i).1 = (add_indicator i p.1 p.2).1 := rfl
    rw [h1, add_indicator_fst]
    by_cases hiv : i = Indicator.vwap
    · by_cases hm : Indicator.vwap ∈ rest <;> simp [hiv, hm]
    · by_cases hm : Indicator.vwap ∈ rest <;>
        simp [hiv, hm, List.mem_cons, Ne.symm hiv]

theorem fold_chartStep_snd (sel : List Indicator) :
    ∀ p : DF × List Layer,
      (sel.foldl chartStep p).2 = p.2 ++ (sel.map (linesFor p.1.rows)).flatten := by
  induction sel with
  | nil => intro p; simp
  | cons i rest ih =>
    intro p
    rw [List.foldl_cons, ih (chartStep p i)]
    have h1 : (chartStep p i).1 = (add_indicator i p.1 p.2).1 := rfl
    have h2 : (chartStep p i).2 = (add_indicator i p.1 p.2).2 := rfl
    rw [h2, add_indicator_snd]
    rw [show (chartStep p i).1.rows = p.1.rows from by rw [h1, add_indicator_fst]]
    simp [List.append_assoc]

/-- C4: the built chart lists the candlestick layer first and then the line
layers of each selected indicator in selection order, one line per non-band
indicator and two for the Bollinger bands; in particular a valid 252-row
PriceSeries with the selection SMA then VWAP yields exactly the three layers
candlestick, SMA line, VWAP line in that order. -/
theorem chart_layer_order :
    (∀ (df : DF) (sel : List Indicator),
      (buildChart df sel).2 =
        candlestickLayer df.rows :: (sel.map (linesFor df.rows)).flatten) ∧
    (∀ (rows : List Row) (i : Indicator),
      (linesFor rows i).length = if i = Indicator.bb then 2 else 1) ∧
    df252.rows.length = 252 ∧
    ((buildChart df252 [Indicator.sma, Indicator.vwap]).2).map layerName =
      [candlestickName, smaName, vwapName] := by
  have hbuild : ∀ (df : DF) (sel : List Indicator),
      (buildChart df sel).2 =
        candlestickLayer df.rows :: (sel.map (linesFor df.rows)).flatten := by
    intro df sel
    rw [buildChart, fold_chartStep_snd]
    simp
  refine ⟨hbuild, ?_, ?_, ?_⟩
  · intro rows i
    cases i <;> simp [linesFor]
  · simp [df252]
  · rw [hbuild]
    simp [linesFor, layerName, candlestickLayer]

/-- C9: chart building is deterministic and idempotent: rebuilding from the
state left by a first build, with the same selection, reproduces the same
chart state and the same layer list. -/
theorem buildChart_idempotent (df : DF) (sel : List Indicator) :
    buildChart (buildChart df sel).1 sel = buildChart df sel := by
  have hd1 : (buildChart df sel).1 =
      { rows := df.rows,
        vwapCol := if Indicator.vwap ∈ sel then
            some (vwapSeries (closes df.rows) (volumes df.rows))
          else df.vwapCol } := by
    rw [buildChart, fold_chartStep_fst]
  have hfst : (buildChart (buildChart df sel).1 sel).1 = (buildChart df sel).1 := by
    conv_lhs => rw [buildChart, fold_chartStep_fst]
    rw [hd1]
    by_cases hm : Indicator.vwap ∈ sel <;> simp [hm]
  have hsnd : (buildChart (buildChart df sel).1 sel).2 = (buildChart df sel).2 := by
    simp only [buildChart, fold_chartStep_snd]
    rw [show (List.foldl chartStep (df, [candlestickLayer df.rows]) sel).1.rows = df.rows
      from by rw [fold_chartStep_fst]]
  exact Prod.ext hfst hsnd

/-- C10: computing SMA, EMA or the Bollinger bands leaves the stored series
unchanged, whereas computing VWAP writes a VWAP column back into the stored
series, mutating it. -/
theorem indicator_frame_effect (df : DF) (fig : List Layer) :
    (add_indicator Indicator.sma df fig).1 = df ∧
    (add_indicator Indicator.ema df fig).1 = df ∧
    (add_indicator Indicator.bb df fig).1 = df ∧
    (add_indicator Indicator.vwap df fig).1 =
      { df with vwapCol := some (vwapSeries (closes df.rows) (volumes df.rows)) } ∧
    (df.vwapCol = none → (add_indicator Indicator.vwap df fig).1 ≠ df) := by
  refine ⟨rfl, rfl, rfl, rfl, ?_⟩
  intro h heq
  have hcol := congrArg DF.vwapCol heq
  simp [add_indicator, h] at hcol

/-- Witness for C10: on a freshly fetched 252-row session the VWAP branch
changes the stored series. -/
theorem indicator_frame_effect_witness :
    df252.vwapCol = none ∧ (add_indicator Indicator.vwap df252 []).1 ≠ df252 :=
  ⟨rfl, (indicator_frame_effect df252 []).2.2.2.2 rfl⟩

theorem fold_renderStep (fails : Indicator → Bool) (sel : List Indicator) :
    ∀ p : DF × List Layer × List String,
      (sel.foldl (renderStep fails) p).2.1 =
        p.2.1 ++ (sel.map fun i => if fails i then [] else linesFor p.1.rows i).flatten ∧
      (sel.foldl (renderStep fails) p).2.2 =
        p.2.2 ++ (sel.filter fails).map indicatorErrMsg ∧
      (sel.foldl (renderStep fails) p).1.rows = p.1.rows := by
  induction sel with
  | nil => intro p; simp
  | cons i rest ih =>
    intro p
    rw [List.foldl_cons]
    by_cases hf : fails i
    · rw [show renderStep fails p i = (p.1, p.2.1, p.2.2 ++ [indicatorErrMsg i]) from by
        simp [renderStep, hf]]
      obtain ⟨hl, he, hr⟩ := ih (p.1, p.2.1, p.2.2 ++ [indicatorErrMsg i])
      refine ⟨?_, ?_, ?_⟩
      · rw [hl]
        simp [hf]
      · rw [he]
        simp [hf, List.append_assoc]
      · exact hr
    · rw [show renderStep fails p i =
          ((add_indicator i p.1 p.2.1).1, (add_indicator i p.1 p.2.1).2, p.2.2) from by
        simp [renderStep, hf]]
      obtain ⟨hl, he, hr⟩ :=
        ih ((add_indicator i p.1 p.2.1).1, (add_indicator i p.1 p.2.1).2, p.2.2)
      refine ⟨?_, ?_, ?_⟩
      · rw [hl, add_indicator_snd, add_indicator_fst]
        simp [hf, List.append_assoc]
      · rw [he]
        simp [hf]
      · rw [hr, add_indicator_fst]

/-- C8: a failure while computing one indicator does not abort the others or
the chart: the failing indicator contributes no layers but a surfaced error
message, and the layers of every other selected indicator are still added in
selection order after the candlestick layer. -/
theorem indicator_failure_isolated (fails : Indicator → Bool) (df : DF)
    (sel : List Indicator) :
    (renderWithFaults fails df sel).2.1 =
      candlestickLayer df.rows ::
        (sel.map fun i => if fails i then [] else linesFor df.rows i).flatten ∧
    (renderWithFaults fails df sel).2.2 = (sel.filter fails).map indicatorErrMsg := by
  obtain ⟨hl, he, _⟩ := fold_renderStep fails sel (df, [candlestickLayer df.rows], [])
  constructor
  · rw [renderWithFaults, hl]
    simp
  · rw [renderWithFaults, he]
    simp

/-- C5 counterexample: the empty series and the null-close series produce the
same warning message, refuting the claim that the two cases have distinct
messages. -/
theorem validation_message_not_distinct :
    runPipeline [] [] = PipelineResult.warned noDataMsg ∧
    runPipeline [nullCloseRow] [] = PipelineResult.warned noDataMsg :=
  ⟨rfl, rfl⟩

/-- C5 (amended): an empty PriceSeries and a PriceSeries containing a null
value are both rejected before any indicator computation or chart
construction, but with one shared warning message, not distinct ones. -/
theorem validation_gate_blocks (sel : List Indicator) :
    runPipeline [] sel = PipelineResult.warned noDataMsg ∧
    (∀ raw : List RawRow, isnullAny raw = true →
      runPipeline raw sel = PipelineResult.warned noDataMsg) := by
  constructor
  · rfl
  · intro raw h
    rw [runPipeline, h]
    simp

/-- Witness for C5 at the concrete null-close series. -/
theorem validation_gate_blocks_witness :
    isnullAny [nullCloseRow] = true ∧
    runPipeline [nullCloseRow] [] = PipelineResult.warned noDataMsg :=
  ⟨by decide, (validation_gate_blocks []).2 [nullCloseRow] (by decide)⟩

/-- C6 counterexample: a model-request failure during the analysis block is
not turned into a user-visible message at the orchestration boundary; it
escapes the block uncaught. -/
theorem analysis_failure_uncaught :
    (runAnalysis (Except.error timeoutMsg)).uncaught = some timeoutMsg ∧
    (runAnalysis (Except.error timeoutMsg)).errorShown = none ∧
    (runAnalysis (Except.error timeoutMsg)).displayed = none :=
  ⟨rfl, rfl, rfl⟩

/-- C6 (amended): fetch failures, validation failures and per-indicator
failures are caught and surfaced as user-visible messages with the session
left in its prior state, but a model-request failure in the analysis block is
not caught there: it propagates as an unhandled exception, with no in-app
failure message (and no silently empty recommendation is displayed). -/
theorem orchestrator_failure_handling :
    (∀ (e : String) (prev : Option (List RawRow)),
      fetchStep (Except.error e) prev =
        { stored := prev, errorShown := some (fetchErrMsg e), stopped := true }) ∧
    (∀ (sel : List Indicator) (rest : List RawRow),
      runPipeline (nullCloseRow :: rest) sel = PipelineResult.warned noDataMsg) ∧
    (∀ (fails : Indicator → Bool) (df : DF) (sel : List Indicator),
      (renderWithFaults fails df sel).2.2 = (sel.filter fails).map indicatorErrMsg) ∧
    (∀ e : String,
      (runAnalysis (Except.error e)).uncaught = some e ∧
      (runAnalysis (Except.error e)).errorShown = none ∧
      (runAnalysis (Except.error e)).displayed = none) := by
  refine ⟨fun e prev => rfl, ?_, ?_, fun e => ⟨rfl, rfl, rfl⟩⟩
  · intro sel rest
    rw [runPipeline]
    simp [isnullAny, rowHasNull, nullCloseRow]
  · intro fails df sel
    obtain ⟨_, he, _⟩ := fold_renderStep fails sel (df, [candlestickLayer df.rows], [])
    rw [renderWithFaults, he]
    simp

/-- C7 counterexample: after a model-request failure the temporary chart
image still exists, so the file is not removed on the failure path. -/
theorem temp_file_leaked_on_failure :
    (runAnalysis (Except.error timeoutMsg)).tempFileExists = true :=
  rfl

/-- C7 (amended): the temporary chart image is removed before the analysis
invocation returns on success, but on a model-request failure the exception
escapes before the cleanup line runs and the file still exists. -/
theorem temp_file_cleanup :
    (∀ c : String, (runAnalysis (Except.ok c)).tempFileExists = false) ∧
    (∀ e : String, (runAnalysis (Except.error e)).tempFileExists = true ∧
      (runAnalysis (Except.error e)).uncaught = some e) :=
  ⟨fun c => rfl, fun e => ⟨rfl, rfl⟩⟩

end AiStock
